import Mathlib

/-!
Verification development for the Execution & Signature-Quorum Coordination
Engine (`ai-agents/src/signature_collector.py`,
`ai-agents/src/execution_coordinator.py`,
`ai-agents/src/emergency_coordinator.py`).

The Python code is shallowly embedded: each method that mutates the
collector's or coordinator's in-memory dictionaries becomes a pure Lean
function from the old state to the new state; the wall clock is passed in
explicitly as a `Nat` parameter (`now`), with the collection expiry stored in
the same abstract time unit; external collaborators (the signature verifier
and the settlement backend) are passed in as function parameters, exactly as
the spec treats them as external interfaces.
-/

namespace EmergencyGuardian

/-- `SignatureStatus` enum from `signature_collector.py`. -/
inductive SignatureStatus where
  | PENDING
  | IN_PROGRESS
  | COMPLETED
  | FAILED
  | EXPIRED
  | CANCELLED
deriving DecidableEq, Repr

/-- `SignatureType` enum from `signature_collector.py`. -/
inductive SignatureType where
  | ETHEREUM
  | EIP712
  | MULTISIG
  | THRESHOLD
deriving DecidableEq, Repr

/-- `SeverityLevel` enum from `emergency_coordinator.py` (lines 180-185).
Its Python `.value` strings are lowercase; see `SeverityLevel.value`. -/
inductive SeverityLevel where
  | LOW
  | MEDIUM
  | HIGH
  | CRITICAL
deriving DecidableEq, Repr

/-- The `.value` payload of `SeverityLevel` (lowercase strings in the source). -/
def SeverityLevel.value : SeverityLevel → String
  | .LOW => "low"
  | .MEDIUM => "medium"
  | .HIGH => "high"
  | .CRITICAL => "critical"

/-- `ExecutionStatus` enum from `execution_coordinator.py`. -/
inductive ExecutionStatus where
  | PENDING
  | IN_PROGRESS
  | WAITING_SIGNATURES
  | READY_TO_EXECUTE
  | EXECUTING
  | COMPLETED
  | FAILED
  | CANCELLED
deriving DecidableEq, Repr

/-- The `.value` payload of `ExecutionStatus`. -/
def ExecutionStatus.value : ExecutionStatus → String
  | .PENDING => "pending"
  | .IN_PROGRESS => "in_progress"
  | .WAITING_SIGNATURES => "waiting_signatures"
  | .READY_TO_EXECUTE => "ready_to_execute"
  | .EXECUTING => "executing"
  | .COMPLETED => "completed"
  | .FAILED => "failed"
  | .CANCELLED => "cancelled"

/-- `ExecutionPhase` enum from `execution_coordinator.py`. -/
inductive ExecutionPhase where
  | PREPARATION
  | SIGNATURE_COLLECTION
  | CONTRACT_EXECUTION
  | VERIFICATION
  | COMPLETION
deriving DecidableEq, Repr

/-- The `.value` payload of `ExecutionPhase`. -/
def ExecutionPhase.value : ExecutionPhase → String
  | .PREPARATION => "preparation"
  | .SIGNATURE_COLLECTION => "signature_collection"
  | .CONTRACT_EXECUTION => "contract_execution"
  | .VERIFICATION => "verification"
  | .COMPLETION => "completion"

/-- `GuardianSignature` dataclass from `signature_collector.py`.
`timestamp` is the abstract clock value at creation. -/
structure GuardianSignature where
  guardian_address : String
  signature : String
  signature_type : SignatureType
  timestamp : Nat
  message_hash : String
  verified : Bool
deriving DecidableEq, Repr

/-- `SignatureCollection` dataclass from `signature_collector.py`.
`created_at` / `expires_at` are abstract clock values (the Python code uses
`datetime`; only their ordering is ever consulted). -/
structure SignatureCollection where
  collection_id : String
  execution_id : String
  required_signatures : Nat
  collected_signatures : List GuardianSignature
  status : SignatureStatus
  created_at : Nat
  expires_at : Nat
  message_to_sign : String
  message_hash : String
deriving DecidableEq, Repr

/-- `SignatureCollection.collected_count`: number of entries whose
`verified` flag is set. -/
def collected_count (c : SignatureCollection) : Nat :=
  (c.collected_signatures.filter (fun s => s.verified)).length

/-- `SignatureCollection.is_complete`: `collected_count >= required_signatures`. -/
def is_complete (c : SignatureCollection) : Bool :=
  decide (c.required_signatures ≤ collected_count c)

/-- `SignatureCollection.is_expired`: `datetime.now() > expires_at`. -/
def is_expired (now : Nat) (c : SignatureCollection) : Bool :=
  decide (c.expires_at < now)

/-- The collector's `self.collections` dictionary (`Dict[str, SignatureCollection]`),
embedded as an association list keyed by execution id. -/
abbrev CollectorState := List (String × SignatureCollection)

/-- Python `dict[key]` lookup on an association list. -/
def alistLookup {α : Type} : List (String × α) → String → Option α
  | [], _ => none
  | (k, v) :: rest, key => if k = key then some v else alistLookup rest key

/-- Python `dict[key] = value` on an association list (replaces the existing
binding if present, appends otherwise). -/
def alistInsert {α : Type} : List (String × α) → String → α → List (String × α)
  | [], key, v => [(key, v)]
  | (k, w) :: rest, key, v =>
      if k = key then (key, v) :: rest else (k, w) :: alistInsert rest key v

/-- Python `del dict[key]` on an association list (removes the first binding). -/
def alistErase {α : Type} : List (String × α) → String → List (String × α)
  | [], _ => []
  | (k, w) :: rest, key => if k = key then rest else (k, w) :: alistErase rest key

/-- One `%02x` group of the mock hash: lowercase hex of a character's code
point, left-padded to two digits (`f'{ord(c):02x}'`). -/
def hexOfChar (c : Char) : String :=
  let s := String.mk (Nat.toDigits 16 c.toNat)
  if s.length < 2 then "0" ++ s else s

/-- `SignatureCollector._create_signature_message`. -/
def create_signature_message (execution_id : String) : String :=
  "Emergency Guardian Execution Authorization: " ++ execution_id

/-- `SignatureCollector._hash_message` in mock mode: hex of the first 32
characters prefixed with `0x`. -/
def hash_message (message : String) : String :=
  "0x" ++ String.join ((message.toList.take 32).map hexOfChar)

/-- `SignatureCollector.initialize_collection`: stores a fresh `Pending`
collection for the execution id (overwriting any previous one) with
`expires_at = now + timelock_hours` and the digest to sign. -/
def initialize_collection (now : Nat) (st : CollectorState) (execution_id : String)
    (required_signatures timelock_hours : Nat) : CollectorState :=
  let message_to_sign := create_signature_message execution_id
  alistInsert st execution_id
    { collection_id := "sig_" ++ execution_id ++ "_" ++ toString now
      execution_id := execution_id
      required_signatures := required_signatures
      collected_signatures := []
      status := .PENDING
      created_at := now
      expires_at := now + timelock_hours
      message_to_sign := message_to_sign
      message_hash := hash_message message_to_sign }

/-- State effect of `SignatureCollector.start_collection`: fails when the
collection is unknown, otherwise moves it to `InProgress`.  (The notification
fan-out and the spawned monitor loop are modelled as separate trace
operations, see `CollectorOp`.) -/
def start_collection (st : CollectorState) (execution_id : String) : Bool × CollectorState :=
  match alistLookup st execution_id with
  | none => (false, st)
  | some c => (true, alistInsert st execution_id { c with status := .IN_PROGRESS })

/-- The mock signature string built in `_simulate_guardian_signature`. -/
def mock_signature (guardian_address : String) : String :=
  "0x" ++ String.join ((guardian_address.toList.take 32).map hexOfChar)

/-- The `if collection.is_complete: collection.status = COMPLETED` check that
follows each signature append in the source. -/
def complete_if_ready (c : SignatureCollection) : SignatureCollection :=
  if is_complete c then { c with status := .COMPLETED } else c

/-- `SignatureCollector._simulate_guardian_signature`: appends an
already-verified mock signature and flips the status to `Completed` when the
threshold is now met. -/
def simulate_guardian_signature (now : Nat) (st : CollectorState)
    (execution_id guardian_address : String) : CollectorState :=
  match alistLookup st execution_id with
  | none => st
  | some c =>
      let gs : GuardianSignature :=
        { guardian_address := guardian_address
          signature := mock_signature guardian_address
          signature_type := .ETHEREUM
          timestamp := now
          message_hash := c.message_hash
          verified := true }
      alistInsert st execution_id
        (complete_if_ready { c with collected_signatures := c.collected_signatures ++ [gs] })

/-- One iteration of `SignatureCollector._monitor_collection`: while the
collection is `InProgress`, mark it `Expired` when past its deadline,
otherwise `Completed` when the threshold is met. -/
def monitor_check (now : Nat) (st : CollectorState) (execution_id : String) : CollectorState :=
  match alistLookup st execution_id with
  | none => st
  | some c =>
      if c.status = .IN_PROGRESS then
        if is_expired now c then alistInsert st execution_id { c with status := .EXPIRED }
        else if is_complete c then alistInsert st execution_id { c with status := .COMPLETED }
        else st
      else st

/-- The type of the external signature verifier
(`verify(guardianId, signature, digest, scheme) → bool`), an external
collaborator per the spec, hence a parameter of the embedding. -/
def SigVerifier := String → String → String → SignatureType → Bool

/-- `SignatureCollector.add_signature`: rejects when the collection is
unknown, past its expiry time, already holds a signature from this guardian,
or the external verifier rejects; otherwise appends one verified
`GuardianSignature` and moves to `Completed` when the threshold is now met. -/
def add_signature (now : Nat) (verify : SigVerifier) (st : CollectorState)
    (execution_id guardian_address signature : String) (signature_type : SignatureType) :
    Bool × CollectorState :=
  match alistLookup st execution_id with
  | none => (false, st)
  | some c =>
      if is_expired now c then (false, st)
      else if c.collected_signatures.any (fun s => s.guardian_address = guardian_address) then
        (false, st)
      else if verify guardian_address signature c.message_hash signature_type then
        let gs : GuardianSignature :=
          { guardian_address := guardian_address
            signature := signature
            signature_type := signature_type
            timestamp := now
            message_hash := c.message_hash
            verified := true }
        (true, alistInsert st execution_id
          (complete_if_ready { c with collected_signatures := c.collected_signatures ++ [gs] }))
      else (false, st)

/-- `SignatureCollector.get_collection_status`. -/
def get_collection_status (st : CollectorState) (execution_id : String) :
    Option SignatureCollection :=
  alistLookup st execution_id

/-- `SignatureCollector.get_collected_signatures`: the verified entries of
the collection ([] when the collection is unknown). -/
def get_collected_signatures (st : CollectorState) (execution_id : String) :
    List GuardianSignature :=
  match alistLookup st execution_id with
  | none => []
  | some c => c.collected_signatures.filter (fun s => s.verified)

/-- `SignatureCollector.cancel_collection`: unconditionally sets `Cancelled`
on an existing collection and reports success; fails only when unknown. -/
def cancel_collection (st : CollectorState) (execution_id : String) : Bool × CollectorState :=
  match alistLookup st execution_id with
  | none => (false, st)
  | some c => (true, alistInsert st execution_id { c with status := .CANCELLED })

/-- `SignatureCollector.cleanup_collection`: drops the entry. -/
def cleanup_collection (st : CollectorState) (execution_id : String) : CollectorState :=
  alistErase st execution_id

/-! ## Execution coordinator (`execution_coordinator.py`) -/

/-- `ExecutionPlan` dataclass from `execution_coordinator.py`.  The source
also stores the raw `emergency_data`/`analysis` objects; the engine itself
only reads the fields carried here.  The source's `steps` are a list of step
dictionaries of which the engine only consults emptiness, so we carry the
step names.  `amount` is carried as an integer number of base units. -/
structure ExecutionPlan where
  execution_id : String
  operation_type : String
  steps : List String
  required_signatures : Nat
  timelock_hours : Nat
  recipient_address : String
  amount : Int
  created_at : Nat
  status : ExecutionStatus := .PENDING
  current_phase : ExecutionPhase := .PREPARATION
deriving DecidableEq, Repr

/-- `ExecutionResult` dataclass from `execution_coordinator.py`. -/
structure ExecutionResult where
  success : Bool
  execution_id : String
  transaction_hash : Option String
  message : String
  completed_steps : List String
  failed_step : Option String := none
deriving DecidableEq, Repr

/-- `ExecutionResult.success_result`. -/
def ExecutionResult.success_result (execution_id tx_hash : String)
    (completed_steps : List String) : ExecutionResult :=
  { success := true
    execution_id := execution_id
    transaction_hash := some tx_hash
    message := "Execution completed successfully"
    completed_steps := completed_steps }

/-- `ExecutionResult.error_result` (note: the source always records an empty
`completed_steps` list on error). -/
def ExecutionResult.error_result (execution_id message : String)
    (failed_step : Option String := none) : ExecutionResult :=
  { success := false
    execution_id := execution_id
    transaction_hash := none
    message := message
    completed_steps := []
    failed_step := failed_step }

/-- `ExecutionCoordinator._calculate_required_signatures`.  The source
compares `severity_level.value` (a lowercase string such as "critical")
against the uppercase literals `'CRITICAL'` / `'HIGH'`, and takes no amount
argument. -/
def calculate_required_signatures (severity_level : SeverityLevel) (urgency_score : Nat) : Nat :=
  let severity_name := severity_level.value
  if severity_name = "CRITICAL" ∨ 90 ≤ urgency_score then 1
  else if severity_name = "HIGH" ∨ 75 ≤ urgency_score then 2
  else 3

/-- `ExecutionCoordinator._calculate_timelock_hours`. -/
def calculate_timelock_hours (urgency_score : Nat) : Nat :=
  if 90 ≤ urgency_score then 1
  else if 75 ≤ urgency_score then 3
  else if 50 ≤ urgency_score then 6
  else 12

/-- The type of the external settlement backend's payment call
(`_execute_smart_contract_payment(recipient, amount, signatures, ...)` →
transaction hash), an external collaborator per the spec, hence a parameter
of the embedding. -/
def PaymentBackend := String → Int → List GuardianSignature → String

/-- Result of `ExecutionCoordinator._execute_contract_phase`.  The source
returns a `{'success', 'message', 'tx_hash'}` dictionary; `payment_called`
additionally records whether the external settlement backend was invoked
(the source's only call site of `_execute_smart_contract_payment`). -/
structure ContractPhaseResult where
  success : Bool
  message : String
  tx_hash : Option String
  payment_called : Bool
deriving Repr

/-- `ExecutionCoordinator._execute_contract_phase`: fetches the verified
signatures for the execution id, fails with an "Insufficient signatures"
message when fewer than required, otherwise invokes the settlement backend
with the plan's recipient, amount and the retrieved signatures. -/
def execute_contract_phase (pay : PaymentBackend) (coll : CollectorState)
    (plan : ExecutionPlan) : ContractPhaseResult :=
  let signatures := get_collected_signatures coll plan.execution_id
  if signatures.length < plan.required_signatures then
    { success := false
      message := "Insufficient signatures: " ++ toString signatures.length ++ "/"
                   ++ toString plan.required_signatures
      tx_hash := none
      payment_called := false }
  else
    { success := true
      message := "Contract execution successful"
      tx_hash := some (pay plan.recipient_address plan.amount signatures)
      payment_called := true }

/-- The integrity checks of `ExecutionCoordinator._execute_preparation_phase`:
non-empty steps, non-empty recipient, positive amount.  (The phase also calls
`initialize_collection`, whose boolean result the source ignores.) -/
def preparation_ok (plan : ExecutionPlan) : Bool :=
  !plan.steps.isEmpty && !(plan.recipient_address = "") && decide (0 < plan.amount)

/-- Possible exits of the `_execute_signature_collection_phase` polling loop:
collection reported completed, collection reported failed, or the plan's own
timelock elapsed.  The loop polls a concurrently mutated collector with
sleeps in between, so its exit is abstracted as a parameter. -/
inductive SigPhaseExit where
  | completed
  | failedStatus
  | timedOut
deriving DecidableEq, Repr

/-- Results of the external confirmations polled by
`_execute_verification_phase` (`_verify_transaction_status` and
`_verify_funds_received`; the source mocks both to `True`, the spec treats
them as external confirmations, so they are parameters here). -/
structure VerificationOracle where
  tx_ok : Bool
  funds_ok : Bool
deriving DecidableEq, Repr

/-- `ExecutionCoordinator.execute_plan`, as the sequence of status/phase
updates and early error returns of the source (lines 222-294), acting on the
stored plan.  `coll` is the collector state observed at the settlement
phase (the collection is filled in concurrently during the
signature-collection phase).  Returns the `ExecutionResult` together with
the plan as left in `self.executions`.  The source sets `status = FAILED`
only in its exception handler; the ordinary failure returns below leave the
status at the failing phase's in-flight value. -/
def execute_plan (pay : PaymentBackend) (verif : VerificationOracle)
    (sigExit : SigPhaseExit) (coll : CollectorState) (plan : ExecutionPlan) :
    ExecutionResult × ExecutionPlan :=
  let p1 := { plan with status := .IN_PROGRESS, current_phase := .PREPARATION }
  if !preparation_ok p1 then
    (ExecutionResult.error_result p1.execution_id "Preparation phase failed"
      (some "preparation"), p1)
  else
    let p2 := { p1 with current_phase := .SIGNATURE_COLLECTION,
                        status := .WAITING_SIGNATURES }
    match sigExit with
    | .failedStatus =>
        (ExecutionResult.error_result p2.execution_id "Signature collection failed"
          (some "signature_collection"), p2)
    | .timedOut =>
        (ExecutionResult.error_result p2.execution_id "Signature collection failed"
          (some "signature_collection"), p2)
    | .completed =>
        let p3 := { p2 with status := .READY_TO_EXECUTE }
        let p4 := { p3 with current_phase := .CONTRACT_EXECUTION, status := .EXECUTING }
        let cr := execute_contract_phase pay coll p4
        if !cr.success then
          (ExecutionResult.error_result p4.execution_id cr.message
            (some "contract_execution"), p4)
        else
          let p5 := { p4 with current_phase := .VERIFICATION }
          if !(verif.tx_ok && verif.funds_ok) then
            (ExecutionResult.error_result p5.execution_id "Verification failed"
              (some "verification"), p5)
          else
            let p6 := { p5 with current_phase := .COMPLETION, status := .COMPLETED }
            (ExecutionResult.success_result p6.execution_id (cr.tx_hash.getD "")
              ["preparation", "signature_collection", "contract_execution",
               "verification", "completion"], p6)

/-- The coordinator's `self.executions` dictionary. -/
abbrev ExecutionsState := List (String × ExecutionPlan)

/-- The dictionary returned by `ExecutionCoordinator.get_execution_status`. -/
structure ExecutionStatusView where
  execution_id : String
  status : String
  current_phase : String
  operation_type : String
  required_signatures : Nat
  collected_signatures : Nat
  amount : Int
  recipient : String
  timelock_hours : Nat
deriving DecidableEq, Repr

/-- `ExecutionCoordinator.get_execution_status`: `None` for an unknown id,
otherwise a snapshot of the stored plan plus the verified-signature count of
its collection (0 when the collection is unknown). -/
def get_execution_status (execs : ExecutionsState) (coll : CollectorState)
    (execution_id : String) : Option ExecutionStatusView :=
  match alistLookup execs execution_id with
  | none => none
  | some p =>
      some
        { execution_id := execution_id
          status := p.status.value
          current_phase := p.current_phase.value
          operation_type := p.operation_type
          required_signatures := p.required_signatures
          collected_signatures :=
            match alistLookup coll execution_id with
            | some c => collected_count c
            | none => 0
          amount := p.amount
          recipient := p.recipient_address
          timelock_hours := p.timelock_hours }

/-- `ExecutionCoordinator.cancel_execution`: fails for an unknown id or a
plan whose status is `Completed` or `Executing`; otherwise sets the plan to
`Cancelled`, cancels its signature collection, and reports success. -/
def cancel_execution (execs : ExecutionsState) (coll : CollectorState)
    (execution_id : String) : Bool × ExecutionsState × CollectorState :=
  match alistLookup execs execution_id with
  | none => (false, execs, coll)
  | some p =>
      if p.status = .COMPLETED ∨ p.status = .EXECUTING then (false, execs, coll)
      else
        let execs1 := alistInsert execs execution_id { p with status := .CANCELLED }
        let coll1 := (cancel_collection coll execution_id).2
        (true, execs1, coll1)

/-! ## Operation traces over the signature collector

A `SignatureCollector` starts with an empty `collections` dictionary; every
mutation of that dictionary in the source is one of the operations below.
`run_ops` replays an arbitrary interleaving of them, which is how the
collection-level invariants are stated. -/

/-- One state mutation of the collector's `collections` dictionary. -/
inductive CollectorOp where
  | init (now : Nat) (execution_id : String) (required_signatures timelock_hours : Nat)
  | start (execution_id : String)
  | simulate (now : Nat) (execution_id guardian_address : String)
  | monitor (now : Nat) (execution_id : String)
  | add (now : Nat) (verify : SigVerifier) (execution_id guardian_address signature : String)
      (signature_type : SignatureType)
  | cancel (execution_id : String)
  | cleanup (execution_id : String)

/-- Apply one collector operation to the state. -/
def apply_op (st : CollectorState) : CollectorOp → CollectorState
  | .init now eid req tl => initialize_collection now st eid req tl
  | .start eid => (start_collection st eid).2
  | .simulate now eid g => simulate_guardian_signature now st eid g
  | .monitor now eid => monitor_check now st eid
  | .add now verify eid g sig ty => (add_signature now verify st eid g sig ty).2
  | .cancel eid => (cancel_collection st eid).2
  | .cleanup eid => cleanup_collection st eid

/-- Replay a trace of collector operations from the initial empty dictionary. -/
def run_ops (ops : List CollectorOp) : CollectorState :=
  ops.foldl apply_op []

/-- Verified-entry count of a raw signature list. -/
def countVerified (l : List GuardianSignature) : Nat :=
  (l.filter (fun s => s.verified)).length

/-- The per-collection invariant: a `Completed` status certifies the quorum,
and every stored entry carries `verified = true`. -/
def SigInv (c : SignatureCollection) : Prop :=
  (c.status = .COMPLETED → c.required_signatures ≤ collected_count c) ∧
  (∀ s ∈ c.collected_signatures, s.verified = true)

/-- The collector-wide invariant, over every binding of the dictionary. -/
def CollectorInv (st : CollectorState) : Prop :=
  ∀ kc ∈ st, SigInv kc.2

/-! ## Concrete scenarios

Inputs used to exercise the theorems below on concrete runs. -/

/-- A verifier that accepts everything (the source's mock mode: with
`WEB3_AVAILABLE` false, `_verify_signature` always returns `True`). -/
def vTrue : SigVerifier := fun _ _ _ _ => true

/-- Default collection used only as the `Option.getD` fallback below. -/
def emptyCollection : SignatureCollection :=
  { collection_id := "", execution_id := "", required_signatures := 0,
    collected_signatures := [], status := .PENDING, created_at := 0,
    expires_at := 0, message_to_sign := "", message_hash := "" }

/-- Quorum 1, one verified submission: reaches `Completed`. -/
def c3ops : List CollectorOp :=
  [.init 0 "e1" 1 2, .start "e1", .add 1 vTrue "e1" "g1" "s1" .ETHEREUM]

def c3col : SignatureCollection := (alistLookup (run_ops c3ops) "e1").getD emptyCollection

/-- Quorum 2, one simulated guardian signature. -/
def c10ops : List CollectorOp := [.init 0 "e2" 2 3, .start "e2", .simulate 1 "e2" "gA"]

def c10col : SignatureCollection := (alistLookup (run_ops c10ops) "e2").getD emptyCollection

def c1plan : ExecutionPlan :=
  { execution_id := "p1", operation_type := "medical_treatment",
    steps := ["transfer_funds"], required_signatures := 2, timelock_hours := 3,
    recipient_address := "0xR", amount := 5, created_at := 0 }

/-- One verified signature collected for plan `p1` (quorum is 2). -/
def c1coll : CollectorState :=
  run_ops [.init 0 "p1" 2 3, .start "p1", .add 0 vTrue "p1" "g1" "s1" .ETHEREUM]

def c1pay : PaymentBackend := fun _ _ _ => "0xTX"

/-- A fresh, in-progress, empty collection with quorum 2, expiring at time 10. -/
def c4st : CollectorState := run_ops [.init 0 "e4" 2 10, .start "e4"]

def c4col : SignatureCollection := (alistLookup c4st "e4").getD emptyCollection

/-- A collection that reached `Completed` (quorum 1) long before its expiry
time 100. -/
def c5st : CollectorState :=
  run_ops [.init 0 "e5" 1 100, .start "e5", .add 0 vTrue "e5" "g1" "s1" .ETHEREUM]

/-- An in-progress empty collection expiring at time 1. -/
def c5wst : CollectorState := run_ops [.init 0 "w5" 1 1, .start "w5"]

def c5wcol : SignatureCollection := (alistLookup c5wst "w5").getD emptyCollection

def c6plan : ExecutionPlan :=
  { execution_id := "e6", operation_type := "medical_treatment",
    steps := ["verify_documents"], required_signatures := 3, timelock_hours := 6,
    recipient_address := "0xR", amount := 10, created_at := 0 }

def c6pay : PaymentBackend := fun _ _ _ => "0xTX"

def c6verif : VerificationOracle := { tx_ok := true, funds_ok := true }

def c7plan : ExecutionPlan :=
  { execution_id := "e7", operation_type := "medical_treatment", steps := ["s"],
    required_signatures := 2, timelock_hours := 3, recipient_address := "0xR",
    amount := 5, created_at := 0, status := .WAITING_SIGNATURES,
    current_phase := .SIGNATURE_COLLECTION }

def c7execs : ExecutionsState := [("e7", c7plan)]

def c7coll : CollectorState := run_ops [.init 0 "e7" 2 3, .start "e7"]

/-- Registry and collector after the first (successful) cancellation. -/
def c7execs1 : ExecutionsState := (cancel_execution c7execs c7coll "e7").2.1

def c7coll1 : CollectorState := (cancel_execution c7execs c7coll "e7").2.2

/-- Default plan used only as the `Option.getD` fallback below. -/
def emptyPlan : ExecutionPlan :=
  { execution_id := "", operation_type := "", steps := [],
    required_signatures := 0, timelock_hours := 0, recipient_address := "",
    amount := 0, created_at := 0 }

def c7plan1 : ExecutionPlan := (alistLookup c7execs1 "e7").getD emptyPlan

def c7col1 : SignatureCollection := (alistLookup c7coll1 "e7").getD emptyCollection

theorem collected_count_eq_countVerified (c : SignatureCollection) :
    collected_count c = countVerified c.collected_signatures := rfl

theorem countVerified_append (l : List GuardianSignature) (gs : GuardianSignature) :
    countVerified (l ++ [gs]) = countVerified l + (if gs.verified then 1 else 0) := by
  by_cases h : gs.verified = true
  · simp [countVerified, List.filter_append, h]
  · simp [countVerified, List.filter_append, h]

theorem countVerified_le_append (l : List GuardianSignature) (gs : GuardianSignature) :
    countVerified l ≤ countVerified (l ++ [gs]) := by
  rw [countVerified_append]
  exact Nat.le_add_right _ _

theorem mem_alistInsert {α : Type} :
    ∀ (m : List (String × α)) (k : String) (v : α) (x : String × α),
      x ∈ alistInsert m k v → x = (k, v) ∨ x ∈ m := by
  intro m k v
  induction m with
  | nil =>
      intro x hx
      simp [alistInsert] at hx
      left
      simp [hx]
  | cons hd tl ih =>
      obtain ⟨k1, w⟩ := hd
      intro x hx
      by_cases h : k1 = k
      · simp [alistInsert, h] at hx
        rcases hx with hx | hx
        · left; simp [hx]
        · right; simp [hx]
      · simp [alistInsert, h] at hx
        rcases hx with hx | hx
        · right; simp [hx]
        · rcases ih x hx with h1 | h1
          · left; exact h1
          · right; simp [h1]

theorem mem_alistErase {α : Type} :
    ∀ (m : List (String × α)) (k : String) (x : String × α),
      x ∈ alistErase m k → x ∈ m := by
  intro m k
  induction m with
  | nil =>
      intro x hx
      simp [alistErase] at hx
  | cons hd tl ih =>
      obtain ⟨k1, w⟩ := hd
      intro x hx
      by_cases h : k1 = k
      · simp [alistErase, h] at hx
        right
        exact hx
      · simp [alistErase, h] at hx
        rcases hx with hx | hx
        · simp [hx]
        · exact List.mem_cons_of_mem _ (ih x hx)

theorem alistLookup_mem {α : Type} :
    ∀ (m : List (String × α)) (q : String) (c : α),
      alistLookup m q = some c → (q, c) ∈ m := by
  intro m
  induction m with
  | nil =>
      intro q c h
      simp [alistLookup] at h
  | cons hd tl ih =>
      obtain ⟨k1, w⟩ := hd
      intro q c h
      by_cases hk : k1 = q
      · simp [alistLookup, hk] at h
        simp [hk, h]
      · simp [alistLookup, hk] at h
        exact List.mem_cons_of_mem _ (ih q c h)

theorem alistLookup_insert {α : Type} :
    ∀ (m : List (String × α)) (k : String) (v : α) (q : String),
      alistLookup (alistInsert m k v) q =
        if k = q then some v else alistLookup m q := by
  intro m k v
  induction m with
  | nil =>
      intro q
      simp [alistInsert, alistLookup]
  | cons hd tl ih =>
      obtain ⟨k1, w⟩ := hd
      intro q
      by_cases h1 : k1 = k
      · by_cases h2 : k = q
        · simp [alistInsert, alistLookup, h1, h2]
        · have h3 : ¬(k1 = q) := by rw [h1]; exact h2
          simp [alistInsert, alistLookup, h1, h2, h3]
      · by_cases h2 : k1 = q
        · have h3 : ¬(k = q) := by
            intro hkq
            exact h1 (h2.trans hkq.symm)
          have h4 : ¬(q = k) := by
            intro hqk
            exact h3 hqk.symm
          simp [alistInsert, alistLookup, h1, h2, h3, h4]
        · simp [alistInsert, alistLookup, h1, h2, ih q]

theorem alistInsert_lookup_self {α : Type} :
    ∀ (m : List (String × α)) (k : String) (v : α),
      alistLookup m k = some v → alistInsert m k v = m := by
  intro m
  induction m with
  | nil =>
      intro k v h
      simp [alistLookup] at h
  | cons hd tl ih =>
      obtain ⟨k1, w⟩ := hd
      intro k v h
      by_cases hk : k1 = k
      · simp [alistLookup, hk] at h
        simp [alistInsert, hk, h]
      · simp [alistLookup, hk] at h
        simp [alistInsert, hk, ih k v h]

theorem collectorInv_insert {st : CollectorState} {k : String} {v : SignatureCollection}
    (hv : SigInv v) (hst : CollectorInv st) : CollectorInv (alistInsert st k v) := by
  intro kc hkc
  rcases mem_alistInsert st k v kc hkc with h | h
  · rw [h]; exact hv
  · exact hst kc h

theorem collectorInv_lookup {st : CollectorState} {k : String} {c : SignatureCollection}
    (hst : CollectorInv st) (h : alistLookup st k = some c) : SigInv c :=
  hst (k, c) (alistLookup_mem st k c h)

theorem sigInv_complete_if_ready {c : SignatureCollection} (hc : SigInv c) :
    SigInv (complete_if_ready c) := by
  unfold complete_if_ready
  split
  · rename_i hcomp
    constructor
    · intro _
      exact of_decide_eq_true hcomp
    · exact hc.2
  · exact hc

theorem sigInv_append_verified {c : SignatureCollection} {gs : GuardianSignature}
    (hgs : gs.verified = true) (hc : SigInv c) :
    SigInv { c with collected_signatures := c.collected_signatures ++ [gs] } := by
  obtain ⟨h1, h2⟩ := hc
  constructor
  · intro hcomp
    have hle : collected_count c ≤
        collected_count { c with collected_signatures := c.collected_signatures ++ [gs] } := by
      rw [collected_count_eq_countVerified, collected_count_eq_countVerified]
      exact countVerified_le_append _ _
    exact Nat.le_trans (h1 hcomp) hle
  · intro s hs
    rcases List.mem_append.mp hs with h | h
    · exact h2 s h
    · have : s = gs := by simpa using h
      rw [this]
      exact hgs

theorem sigInv_set_status {c : SignatureCollection} {stt : SignatureStatus}
    (hst : ¬stt = .COMPLETED) (hc : SigInv c) : SigInv { c with status := stt } := by
  constructor
  · intro hcomp
    exact absurd hcomp hst
  · exact hc.2

/-- Every single collector operation preserves the collector-wide invariant. -/
theorem apply_op_inv (st : CollectorState) (op : CollectorOp) (h : CollectorInv st) :
    CollectorInv (apply_op st op) := by
  cases op with
  | init now eid req tl =>
      simp only [apply_op, initialize_collection]
      apply collectorInv_insert _ h
      constructor
      · intro hc; simp at hc
      · intro s hs; exact absurd hs (by simp)
  | start eid =>
      simp only [apply_op, start_collection]
      split
      · exact h
      · rename_i c hl
        exact collectorInv_insert
          (sigInv_set_status (by decide) (collectorInv_lookup h hl)) h
  | simulate now eid g =>
      simp only [apply_op, simulate_guardian_signature]
      split
      · exact h
      · rename_i c hl
        exact collectorInv_insert
          (sigInv_complete_if_ready (sigInv_append_verified rfl (collectorInv_lookup h hl))) h
  | monitor now eid =>
      simp only [apply_op, monitor_check]
      split
      · exact h
      · rename_i c hl
        split
        · split
          · exact collectorInv_insert
              (sigInv_set_status (by decide) (collectorInv_lookup h hl)) h
          · split
            · rename_i hcomp
              apply collectorInv_insert _ h
              constructor
              · intro _
                exact of_decide_eq_true hcomp
              · exact (collectorInv_lookup h hl).2
            · exact h
        · exact h
  | add now verify eid g sig ty =>
      simp only [apply_op, add_signature]
      split
      · exact h
      · rename_i c hl
        split
        · exact h
        · split
          · exact h
          · split
            · exact collectorInv_insert
                (sigInv_complete_if_ready
                  (sigInv_append_verified rfl (collectorInv_lookup h hl))) h
            · exact h
  | cancel eid =>
      simp only [apply_op, cancel_collection]
      split
      · exact h
      · rename_i c hl
        exact collectorInv_insert
          (sigInv_set_status (by decide) (collectorInv_lookup h hl)) h
  | cleanup eid =>
      simp only [apply_op, cleanup_collection]
      intro kc hkc
      exact h kc (mem_alistErase st eid kc hkc)

/-- The invariant holds in every reachable collector state. -/
theorem run_ops_inv (ops : List CollectorOp) : CollectorInv (run_ops ops) := by
  have hgen : ∀ (l : List CollectorOp) (st : CollectorState),
      CollectorInv st → CollectorInv (l.foldl apply_op st) := by
    intro l
    induction l with
    | nil => intro st hst; exact hst
    | cons hd tl ih =>
        intro st hst
        exact ih (apply_op st hd) (apply_op_inv st hd hst)
  apply hgen
  intro kc hkc
  exact absurd hkc (by simp)

theorem severity_value_not_uppercase (s : SeverityLevel) :
    ¬(s.value = "CRITICAL") ∧ ¬(s.value = "HIGH") := by
  cases s <;> exact ⟨by decide, by decide⟩

theorem boolEqFalse {b : Bool} (h : ¬(b = true)) : b = false := by
  cases b
  · rfl
  · exact absurd rfl h

theorem collected_count_append_one (c : SignatureCollection) (gs : GuardianSignature)
    (hgs : gs.verified = true) :
    collected_count { c with collected_signatures := c.collected_signatures ++ [gs] } =
      collected_count c + 1 := by
  show countVerified (c.collected_signatures ++ [gs]) = countVerified c.collected_signatures + 1
  rw [countVerified_append, hgs]
  simp

theorem complete_if_ready_fields (c : SignatureCollection) :
    (complete_if_ready c).collected_signatures = c.collected_signatures ∧
    (complete_if_ready c).required_signatures = c.required_signatures ∧
    (complete_if_ready c).status =
      (if c.required_signatures ≤ collected_count c then SignatureStatus.COMPLETED
       else c.status) := by
  by_cases hq : c.required_signatures ≤ collected_count c
  · simp [complete_if_ready, is_complete, hq]
  · simp [complete_if_ready, is_complete, hq]

theorem executionPlan_set_status_self {p : ExecutionPlan} {s : ExecutionStatus}
    (h : p.status = s) : { p with status := s } = p := by
  obtain ⟨a1, a2, a3, a4, a5, a6, a7, a8, a9, a10⟩ := p
  simp only at h
  rw [h]

theorem signatureCollection_set_status_self {c : SignatureCollection} {s : SignatureStatus}
    (h : c.status = s) : { c with status := s } = c := by
  obtain ⟨a1, a2, a3, a4, a5, a6, a7, a8, a9⟩ := c
  simp only at h
  rw [h]

theorem add_signature_rejects_iff (now : Nat) (verify : SigVerifier) (st : CollectorState)
    (eid gid sig : String) (ty : SignatureType) :
    (add_signature now verify st eid gid sig ty).1 = false ↔
      (alistLookup st eid = none ∨ ∃ c, alistLookup st eid = some c ∧
        (is_expired now c = true ∨
         c.collected_signatures.any (fun s => s.guardian_address = gid) = true ∨
         verify gid sig c.message_hash ty = false)) := by
  rcases hl : alistLookup st eid with _ | c
  · constructor
    · intro _
      exact Or.inl rfl
    · intro _
      simp [add_signature, hl]
  · by_cases hexp : is_expired now c = true
    · constructor
      · intro _
        exact Or.inr ⟨c, rfl, Or.inl hexp⟩
      · intro _
        simp [add_signature, hl, hexp]
    · by_cases hdup : c.collected_signatures.any (fun s => s.guardian_address = gid) = true
      · constructor
        · intro _
          exact Or.inr ⟨c, rfl, Or.inr (Or.inl hdup)⟩
        · intro _
          simp [add_signature, hl, boolEqFalse hexp, hdup]
      · by_cases hver : verify gid sig c.message_hash ty = true
        · have hr : (add_signature now verify st eid gid sig ty).1 = true := by
            simp [add_signature, hl, boolEqFalse hexp, boolEqFalse hdup, hver]
          constructor
          · intro hfalse
            rw [hr] at hfalse
            cases hfalse
          · intro hcond
            exfalso
            rcases hcond with h | ⟨c2, hc2, h⟩
            · cases h
            · injection hc2 with he
              subst he
              rcases h with h | h | h
              · rw [boolEqFalse hexp] at h
                cases h
              · rw [boolEqFalse hdup] at h
                cases h
              · rw [hver] at h
                cases h
        · constructor
          · intro _
            exact Or.inr ⟨c, rfl, Or.inr (Or.inr (boolEqFalse hver))⟩
          · intro _
            simp [add_signature, hl, boolEqFalse hexp, boolEqFalse hdup, boolEqFalse hver]

theorem add_signature_reject_preserves (now : Nat) (verify : SigVerifier) (st : CollectorState)
    (eid gid sig : String) (ty : SignatureType)
    (h : (add_signature now verify st eid gid sig ty).1 = false) :
    (add_signature now verify st eid gid sig ty).2 = st := by
  rcases hl : alistLookup st eid with _ | c
  · simp [add_signature, hl]
  · by_cases hexp : is_expired now c = true
    · simp [add_signature, hl, hexp]
    · by_cases hdup : c.collected_signatures.any (fun s => s.guardian_address = gid) = true
      · simp [add_signature, hl, boolEqFalse hexp, hdup]
      · by_cases hver : verify gid sig c.message_hash ty = true
        · exfalso
          have hr : (add_signature now verify st eid gid sig ty).1 = true := by
            simp [add_signature, hl, boolEqFalse hexp, boolEqFalse hdup, hver]
          rw [hr] at h
          cases h
        · simp [add_signature, hl, boolEqFalse hexp, boolEqFalse hdup, boolEqFalse hver]

theorem add_signature_success_state (now : Nat) (verify : SigVerifier) (st : CollectorState)
    (eid gid sig : String) (ty : SignatureType) (c : SignatureCollection)
    (hl : alistLookup st eid = some c) (hexp : is_expired now c = false)
    (hdup : c.collected_signatures.any (fun s => s.guardian_address = gid) = false)
    (hver : verify gid sig c.message_hash ty = true) :
    (add_signature now verify st eid gid sig ty).1 = true ∧
    (add_signature now verify st eid gid sig ty).2 = alistInsert st eid (complete_if_ready
      { c with collected_signatures := c.collected_signatures ++
          [{ guardian_address := gid, signature := sig, signature_type := ty,
             timestamp := now, message_hash := c.message_hash, verified := true }] }) := by
  constructor
  · simp [add_signature, hl, hexp, hdup, hver]
  · simp [add_signature, hl, hexp, hdup, hver]

/-! ## Claim theorems -/

/-- C1: the settlement backend payment is invoked exactly when the number of
verified signatures retrieved for the execution id reaches the plan's
`required_signatures`; below the quorum the contract-execution phase fails
with an "Insufficient signatures" message and no payment call, at or above it
the payment is invoked with the plan's recipient, amount and the retrieved
signatures. -/
theorem contract_phase_payment_gate (pay : PaymentBackend) (coll : CollectorState)
    (plan : ExecutionPlan) :
    ((get_collected_signatures coll plan.execution_id).length < plan.required_signatures →
      (execute_contract_phase pay coll plan).success = false ∧
      (execute_contract_phase pay coll plan).payment_called = false ∧
      (execute_contract_phase pay coll plan).message =
        "Insufficient signatures: "
          ++ toString (get_collected_signatures coll plan.execution_id).length
          ++ "/" ++ toString plan.required_signatures) ∧
    (plan.required_signatures ≤ (get_collected_signatures coll plan.execution_id).length →
      (execute_contract_phase pay coll plan).success = true ∧
      (execute_contract_phase pay coll plan).payment_called = true ∧
      (execute_contract_phase pay coll plan).tx_hash =
        some (pay plan.recipient_address plan.amount
          (get_collected_signatures coll plan.execution_id))) := by
  constructor
  · intro h
    simp [execute_contract_phase, h]
  · intro h
    have h2 : ¬((get_collected_signatures coll plan.execution_id).length <
        plan.required_signatures) := Nat.not_lt.mpr h
    simp [execute_contract_phase, h2]

theorem contract_phase_payment_gate_witness :
    (get_collected_signatures c1coll c1plan.execution_id).length < c1plan.required_signatures ∧
    (execute_contract_phase c1pay c1coll c1plan).success = false ∧
    (execute_contract_phase c1pay c1coll c1plan).payment_called = false :=
  ⟨by decide,
   ((contract_phase_payment_gate c1pay c1coll c1plan).1 (by decide)).1,
   ((contract_phase_payment_gate c1pay c1coll c1plan).1 (by decide)).2.1⟩

/-- C2 counterexample: the claim says `Critical` severity alone forces a
single required signature, but `_calculate_required_signatures` compares the
lowercase enum payload "critical" against the uppercase literal `'CRITICAL'`,
so at severity `Critical` with urgency 0 it returns 3, not 1. -/
theorem required_signatures_ignores_severity_cex :
    calculate_required_signatures SeverityLevel.CRITICAL 0 ≠ 1 := by decide

/-- C2 (amended): the derived required-signature count depends on the urgency
score only — 1 if urgency ≥ 90, 2 if ≥ 75, else 3 — for every severity level;
the severity comparison in the source never matches (case mismatch) and the
function takes no amount argument, so there is no large-payment increase and
no cap at 5. -/
theorem required_signatures_urgency_only (s : SeverityLevel) (u : Nat) (hu : u ≤ 100) :
    calculate_required_signatures s u =
      (if 90 ≤ u then 1 else if 75 ≤ u then 2 else 3) ∧
    1 ≤ calculate_required_signatures s u ∧ calculate_required_signatures s u ≤ 3 := by
  obtain ⟨h1, h2⟩ := severity_value_not_uppercase s
  have heq : calculate_required_signatures s u =
      (if 90 ≤ u then 1 else if 75 ≤ u then 2 else 3) := by
    unfold calculate_required_signatures
    simp only [or_iff_right h1, or_iff_right h2]
  refine ⟨heq, ?_, ?_⟩ <;> rw [heq] <;> split_ifs <;> omega

theorem required_signatures_urgency_only_witness :
    40 ≤ 100 ∧ calculate_required_signatures SeverityLevel.HIGH 40 = 3 := by
  refine ⟨by decide, ?_⟩
  have h := (required_signatures_urgency_only SeverityLevel.HIGH 40 (by decide)).1
  rw [h]
  decide

/-- C3: in every collector state reachable by any sequence of operations, a
collection whose status is `Completed` holds at least `required_signatures`
verified entries — the status never becomes `Completed` below the quorum. -/
theorem collection_never_completed_below_quorum (ops : List CollectorOp) (eid : String)
    (c : SignatureCollection) (hl : alistLookup (run_ops ops) eid = some c)
    (hc : c.status = SignatureStatus.COMPLETED) :
    c.required_signatures ≤ collected_count c :=
  (collectorInv_lookup (run_ops_inv ops) hl).1 hc

theorem collection_never_completed_below_quorum_witness :
    c3col.required_signatures ≤ collected_count c3col :=
  collection_never_completed_below_quorum c3ops "e1" c3col rfl rfl

/-- C8: the derived timelock is 1 hour for urgency ≥ 90, 3 for ≥ 75, 6 for
≥ 50, else 12 — hence always in {1, 3, 6, 12} — and both the timelock and
required-signature derivations are deterministic functions of their
arguments (equal inputs give equal outputs; as pure Lean functions the
embedding has no side effects). -/
theorem timelock_hours_policy (u : Nat) (hu : u ≤ 100) :
    calculate_timelock_hours u =
      (if 90 ≤ u then 1 else if 75 ≤ u then 3 else if 50 ≤ u then 6 else 12) ∧
    (calculate_timelock_hours u = 1 ∨ calculate_timelock_hours u = 3 ∨
      calculate_timelock_hours u = 6 ∨ calculate_timelock_hours u = 12) ∧
    (∀ v : Nat, v = u → calculate_timelock_hours v = calculate_timelock_hours u) ∧
    (∀ (s : SeverityLevel) (v : Nat), v = u →
      calculate_required_signatures s v = calculate_required_signatures s u) := by
  refine ⟨rfl, ?_, ?_, ?_⟩
  · unfold calculate_timelock_hours
    split_ifs <;> simp
  · intro v hv
    rw [hv]
  · intro s v hv
    rw [hv]

theorem timelock_hours_policy_witness :
    85 ≤ 100 ∧ (calculate_timelock_hours 85 = 1 ∨ calculate_timelock_hours 85 = 3 ∨
      calculate_timelock_hours 85 = 6 ∨ calculate_timelock_hours 85 = 12) :=
  ⟨by decide, (timelock_hours_policy 85 (by decide)).2.1⟩

/-- C10: in every reachable collector state, every stored `GuardianSignature`
has `verified = true`, so `collected_count` equals the total number of stored
entries and `get_collected_signatures` returns every stored entry. -/
theorem stored_signatures_all_verified (ops : List CollectorOp) (eid : String)
    (c : SignatureCollection) (hl : alistLookup (run_ops ops) eid = some c) :
    (∀ s ∈ c.collected_signatures, s.verified = true) ∧
    collected_count c = c.collected_signatures.length ∧
    get_collected_signatures (run_ops ops) eid = c.collected_signatures := by
  have hinv := collectorInv_lookup (run_ops_inv ops) hl
  have hfilter : c.collected_signatures.filter (fun s => s.verified) =
      c.collected_signatures := by
    apply List.filter_eq_self.mpr
    intro a ha
    exact hinv.2 a ha
  refine ⟨hinv.2, ?_, ?_⟩
  · rw [collected_count_eq_countVerified]
    unfold countVerified
    rw [hfilter]
  · unfold get_collected_signatures
    rw [hl]
    exact hfilter

theorem stored_signatures_all_verified_witness :
    collected_count c10col = c10col.collected_signatures.length ∧
    get_collected_signatures (run_ops c10ops) "e2" = c10col.collected_signatures :=
  ⟨(stored_signatures_all_verified c10ops "e2" c10col rfl).2.1,
   (stored_signatures_all_verified c10ops "e2" c10col rfl).2.2⟩

/-- C4: `add_signature` returns failure with the state unchanged exactly when
the collection is unknown, past its expiry time, already holds a signature
from the guardian, or the external verifier rejects; in every other case it
returns success, appending exactly one new `GuardianSignature` for the
guardian, and the status transitions to `Completed` precisely when the
verified count now meets `required_signatures`. -/
theorem add_signature_contract (now : Nat) (verify : SigVerifier) (st : CollectorState)
    (eid gid sig : String) (ty : SignatureType) :
    ((add_signature now verify st eid gid sig ty).1 = false ↔
      (alistLookup st eid = none ∨ ∃ c, alistLookup st eid = some c ∧
        (is_expired now c = true ∨
         c.collected_signatures.any (fun s => s.guardian_address = gid) = true ∨
         verify gid sig c.message_hash ty = false))) ∧
    ((add_signature now verify st eid gid sig ty).1 = false →
      (add_signature now verify st eid gid sig ty).2 = st) ∧
    (∀ c, alistLookup st eid = some c →
      is_expired now c = false →
      c.collected_signatures.any (fun s => s.guardian_address = gid) = false →
      verify gid sig c.message_hash ty = true →
      (add_signature now verify st eid gid sig ty).1 = true ∧
      ∃ c2, alistLookup (add_signature now verify st eid gid sig ty).2 eid = some c2 ∧
        c2.collected_signatures.length = c.collected_signatures.length + 1 ∧
        c2.collected_signatures.map (fun s => s.guardian_address) =
          c.collected_signatures.map (fun s => s.guardian_address) ++ [gid] ∧
        collected_count c2 = collected_count c + 1 ∧
        c2.status = (if c.required_signatures ≤ collected_count c + 1
          then SignatureStatus.COMPLETED else c.status)) := by
  refine ⟨add_signature_rejects_iff now verify st eid gid sig ty,
    add_signature_reject_preserves now verify st eid gid sig ty, ?_⟩
  intro c hl hexp hdup hver
  obtain ⟨h1, h2⟩ := add_signature_success_state now verify st eid gid sig ty c hl hexp hdup hver
  refine ⟨h1, ?_⟩
  set gs : GuardianSignature :=
    { guardian_address := gid, signature := sig, signature_type := ty,
      timestamp := now, message_hash := c.message_hash, verified := true } with hgs
  set c1 : SignatureCollection :=
    { c with collected_signatures := c.collected_signatures ++ [gs] } with hc1
  have hlook : alistLookup (add_signature now verify st eid gid sig ty).2 eid =
      some (complete_if_ready c1) := by
    rw [h2, alistLookup_insert]
    simp
  obtain ⟨hf1, hf2, hf3⟩ := complete_if_ready_fields c1
  have hcnt : collected_count c1 = collected_count c + 1 :=
    collected_count_append_one c gs rfl
  refine ⟨complete_if_ready c1, hlook, ?_, ?_, ?_, ?_⟩
  · rw [hf1, hc1]
    simp
  · rw [hf1, hc1]
    simp
  · rw [collected_count_eq_countVerified, hf1, ← collected_count_eq_countVerified, hcnt]
  · rw [hf3, hcnt, hc1]

theorem add_signature_contract_witness :
    (add_signature 1 vTrue c4st "e4" "g1" "sg" SignatureType.ETHEREUM).1 = true ∧
    (add_signature 1 vTrue [] "missing" "g" "s" SignatureType.ETHEREUM).1 = false ∧
    (add_signature 1 vTrue [] "missing" "g" "s" SignatureType.ETHEREUM).2 = [] :=
  ⟨((add_signature_contract 1 vTrue c4st "e4" "g1" "sg" SignatureType.ETHEREUM).2.2 c4col
      rfl rfl rfl rfl).1,
   (add_signature_contract 1 vTrue [] "missing" "g" "s" SignatureType.ETHEREUM).1.mpr
      (Or.inl rfl),
   (add_signature_contract 1 vTrue [] "missing" "g" "s" SignatureType.ETHEREUM).2.1
      ((add_signature_contract 1 vTrue [] "missing" "g" "s" SignatureType.ETHEREUM).1.mpr
        (Or.inl rfl))⟩

/-- C5 counterexample: a collection whose status is `Completed` (quorum 1
met, expiry time 100 not yet reached) is not immutable — a submission from a
new guardian at time 50 succeeds and appends a second signature, and a
cancel on the same `Completed` collection changes its status to `Cancelled`. -/
theorem terminal_collection_still_mutable_cex :
    (alistLookup c5st "e5").map (fun c => c.status) = some SignatureStatus.COMPLETED ∧
    (alistLookup c5st "e5").map (fun c => c.collected_signatures.length) = some 1 ∧
    (add_signature 50 vTrue c5st "e5" "g2" "s2" SignatureType.ETHEREUM).1 = true ∧
    (alistLookup (add_signature 50 vTrue c5st "e5" "g2" "s2" SignatureType.ETHEREUM).2 "e5").map
      (fun c => c.collected_signatures.length) = some 2 ∧
    (alistLookup (cancel_collection c5st "e5").2 "e5").map (fun c => c.status) =
      some SignatureStatus.CANCELLED := by
  refine ⟨?_, ?_, ?_, ?_, ?_⟩ <;> decide

/-- C5 (amended): only the expiry clock freezes a collection against
submissions — once past `expires_at`, `add_signature` fails and leaves the
state unchanged.  Status is never consulted: `cancel_collection` on any
existing collection (whatever its status, including `Completed`, `Expired`
or `Cancelled`) returns true and rewrites the status to `Cancelled`, and a
`Completed` or `Cancelled` collection before its expiry still accepts a new
guardian's verified signature. -/
theorem collection_mutability_amended (now : Nat) (verify : SigVerifier) (st : CollectorState)
    (eid gid sig : String) (ty : SignatureType) (c : SignatureCollection)
    (hl : alistLookup st eid = some c) :
    (c.expires_at < now → add_signature now verify st eid gid sig ty = (false, st)) ∧
    (cancel_collection st eid).1 = true ∧
    (cancel_collection st eid).2 =
      alistInsert st eid { c with status := SignatureStatus.CANCELLED } := by
  refine ⟨?_, ?_, ?_⟩
  · intro hexp
    have hb : is_expired now c = true := decide_eq_true hexp
    simp [add_signature, hl, hb]
  · simp [cancel_collection, hl]
  · simp [cancel_collection, hl]

theorem collection_mutability_amended_witness :
    c5wcol.expires_at < 5 ∧
    add_signature 5 vTrue c5wst "w5" "gZ" "sZ" SignatureType.ETHEREUM = (false, c5wst) :=
  ⟨by decide,
   (collection_mutability_amended 5 vTrue c5wst "w5" "gZ" "sZ" SignatureType.ETHEREUM
      c5wcol rfl).1 (by decide)⟩

/-- C6 counterexample: when the signature-collection phase fails (quorum 3,
no signatures, polling timed out), the returned result records failed step
"signature_collection", but the stored plan's status stays
`WaitingSignatures` — not `Failed` — and a later `get_execution_status`
reports "waiting_signatures" rather than the claimed terminal failed state. -/
theorem phase_failure_status_not_failed_cex :
    (execute_plan c6pay c6verif SigPhaseExit.timedOut [] c6plan).1.failed_step =
      some "signature_collection" ∧
    (execute_plan c6pay c6verif SigPhaseExit.timedOut [] c6plan).1.success = false ∧
    (execute_plan c6pay c6verif SigPhaseExit.timedOut [] c6plan).2.status =
      ExecutionStatus.WAITING_SIGNATURES ∧
    ¬((execute_plan c6pay c6verif SigPhaseExit.timedOut [] c6plan).2.status =
      ExecutionStatus.FAILED) ∧
    (get_execution_status
        [("e6", (execute_plan c6pay c6verif SigPhaseExit.timedOut [] c6plan).2)] [] "e6").map
      (fun v => v.status) = some "waiting_signatures" := by
  refine ⟨?_, ?_, ?_, ?_, ?_⟩ <;> decide

/-- C6 (amended): on every ordinary phase failure of `execute_plan` the
returned result records the failed step's label and `success = false`, but
the stored plan keeps the failing phase's in-flight status (`InProgress`
after a preparation failure, `WaitingSignatures` after a signature-collection
failure or timeout, `Executing` after a settlement or verification failure)
rather than `Failed`; the source sets `Failed` only in its exception
handler. -/
theorem execute_plan_failure_bookkeeping (pay : PaymentBackend) (verif : VerificationOracle)
    (sigExit : SigPhaseExit) (coll : CollectorState) (plan : ExecutionPlan) :
    (preparation_ok plan = false →
      (execute_plan pay verif sigExit coll plan).1.success = false ∧
      (execute_plan pay verif sigExit coll plan).1.failed_step = some "preparation" ∧
      (execute_plan pay verif sigExit coll plan).2.status = ExecutionStatus.IN_PROGRESS) ∧
    (preparation_ok plan = true → ¬(sigExit = SigPhaseExit.completed) →
      (execute_plan pay verif sigExit coll plan).1.success = false ∧
      (execute_plan pay verif sigExit coll plan).1.failed_step = some "signature_collection" ∧
      (execute_plan pay verif sigExit coll plan).2.status =
        ExecutionStatus.WAITING_SIGNATURES) ∧
    (preparation_ok plan = true → sigExit = SigPhaseExit.completed →
      (get_collected_signatures coll plan.execution_id).length < plan.required_signatures →
      (execute_plan pay verif sigExit coll plan).1.success = false ∧
      (execute_plan pay verif sigExit coll plan).1.failed_step = some "contract_execution" ∧
      (execute_plan pay verif sigExit coll plan).2.status = ExecutionStatus.EXECUTING) ∧
    (preparation_ok plan = true → sigExit = SigPhaseExit.completed →
      plan.required_signatures ≤ (get_collected_signatures coll plan.execution_id).length →
      (verif.tx_ok && verif.funds_ok) = false →
      (execute_plan pay verif sigExit coll plan).1.success = false ∧
      (execute_plan pay verif sigExit coll plan).1.failed_step = some "verification" ∧
      (execute_plan pay verif sigExit coll plan).2.status = ExecutionStatus.EXECUTING) := by
  refine ⟨?_, ?_, ?_, ?_⟩
  · intro hp
    have hp1 : preparation_ok { plan with status := ExecutionStatus.IN_PROGRESS, current_phase := ExecutionPhase.PREPARATION } = false := hp
    refine ⟨?_, ?_, ?_⟩ <;>
      simp [execute_plan, hp1, ExecutionResult.error_result]
  · intro hp hsig
    have hp1 : preparation_ok { plan with status := ExecutionStatus.IN_PROGRESS, current_phase := ExecutionPhase.PREPARATION } = true := hp
    cases sigExit with
    | completed => exact absurd rfl hsig
    | failedStatus =>
        refine ⟨?_, ?_, ?_⟩ <;>
          simp [execute_plan, hp1, ExecutionResult.error_result]
    | timedOut =>
        refine ⟨?_, ?_, ?_⟩ <;>
          simp [execute_plan, hp1, ExecutionResult.error_result]
  · intro hp hsig hlen
    subst hsig
    have hp1 : preparation_ok { plan with status := ExecutionStatus.IN_PROGRESS, current_phase := ExecutionPhase.PREPARATION } = true := hp
    refine ⟨?_, ?_, ?_⟩ <;>
      simp [execute_plan, hp1, execute_contract_phase, hlen, ExecutionResult.error_result]
  · intro hp hsig hlen hver
    subst hsig
    have hp1 : preparation_ok { plan with status := ExecutionStatus.IN_PROGRESS, current_phase := ExecutionPhase.PREPARATION } = true := hp
    have h2 : ¬((get_collected_signatures coll plan.execution_id).length <
        plan.required_signatures) := Nat.not_lt.mpr hlen
    refine ⟨?_, ?_, ?_⟩ <;>
      simp [execute_plan, hp1, execute_contract_phase, h2, hver,
        ExecutionResult.error_result]

theorem execute_plan_failure_bookkeeping_witness :
    preparation_ok c6plan = true ∧
    (execute_plan c6pay c6verif SigPhaseExit.failedStatus [] c6plan).1.failed_step =
      some "signature_collection" ∧
    (execute_plan c6pay c6verif SigPhaseExit.failedStatus [] c6plan).2.status =
      ExecutionStatus.WAITING_SIGNATURES :=
  ⟨by decide,
   ((execute_plan_failure_bookkeeping c6pay c6verif SigPhaseExit.failedStatus [] c6plan).2.1
      (by decide) (by decide)).2.1,
   ((execute_plan_failure_bookkeeping c6pay c6verif SigPhaseExit.failedStatus [] c6plan).2.1
      (by decide) (by decide)).2.2⟩

/-- C7 counterexample: cancelling the same execution twice — the first call
succeeds and sets the plan `Cancelled` — returns true (not false, as
claimed) on the second call, although that second call leaves the registry
and the signature collection unchanged. -/
theorem cancel_twice_returns_true_cex :
    (cancel_execution c7execs c7coll "e7").1 = true ∧
    (cancel_execution c7execs1 c7coll1 "e7").1 = true ∧
    (cancel_execution c7execs1 c7coll1 "e7").2.1 = c7execs1 ∧
    (cancel_execution c7execs1 c7coll1 "e7").2.2 = c7coll1 := by
  refine ⟨?_, ?_, ?_, ?_⟩ <;> decide

/-- C7 (amended): a second cancel on an already-cancelled plan returns true
(the guard only refuses `Completed` and `Executing` plans); it re-applies the
`Cancelled` status to the plan and its collection, leaving both the registry
entry and the signature collection unchanged. -/
theorem cancel_already_cancelled_keeps_state (execs : ExecutionsState) (coll : CollectorState)
    (eid : String) (p : ExecutionPlan)
    (hp : alistLookup execs eid = some p) (hstat : p.status = ExecutionStatus.CANCELLED)
    (hcoll : alistLookup coll eid = none ∨
      ∃ c, alistLookup coll eid = some c ∧ c.status = SignatureStatus.CANCELLED) :
    (cancel_execution execs coll eid).1 = true ∧
    (cancel_execution execs coll eid).2.1 = execs ∧
    (cancel_execution execs coll eid).2.2 = coll := by
  have hne : ¬(p.status = ExecutionStatus.COMPLETED ∨ p.status = ExecutionStatus.EXECUTING) := by
    rw [hstat]
    decide
  have hins : alistInsert execs eid { p with status := ExecutionStatus.CANCELLED } = execs := by
    rw [executionPlan_set_status_self hstat]
    exact alistInsert_lookup_self execs eid p hp
  have hcc : (cancel_collection coll eid).2 = coll := by
    rcases hcoll with h | ⟨c, hc, hcs⟩
    · simp [cancel_collection, h]
    · have hins2 : alistInsert coll eid { c with status := SignatureStatus.CANCELLED } = coll := by
        rw [signatureCollection_set_status_self hcs]
        exact alistInsert_lookup_self coll eid c hc
      simp [cancel_collection, hc, hins2]
  refine ⟨?_, ?_, ?_⟩ <;> simp [cancel_execution, hp, hne, hins, hcc]

theorem cancel_already_cancelled_keeps_state_witness :
    c7plan1.status = ExecutionStatus.CANCELLED ∧
    (cancel_execution c7execs1 c7coll1 "e7").1 = true ∧
    (cancel_execution c7execs1 c7coll1 "e7").2.1 = c7execs1 ∧
    (cancel_execution c7execs1 c7coll1 "e7").2.2 = c7coll1 := by
  have h := cancel_already_cancelled_keeps_state c7execs1 c7coll1 "e7" c7plan1 rfl rfl
    (Or.inr ⟨c7col1, rfl, rfl⟩)
  exact ⟨rfl, h.1, h.2.1, h.2.2⟩

end EmergencyGuardian
